import Mathlib

/-
Verification of the configuration header `src/include/user_settings.h` of the
ISS_Tracker_M5StickCPlus repository.  The header is pure compile-time
configuration: five object-like preprocessing defines (WIFI_SSID,
WIFI_PASSWORD, HOME_LAT, HOME_LON, LOC_TOKEN) together with comments, a blank
line and a pragma.  The shallow embedding below transcribes the file line by
line as token lists, and models object-like expansion of a define name inside
surrounding source code.
-/

namespace UserSettings

/-- A preprocessing token occurring in a define body or in surrounding source
code.  String literals carry their contents, a numeric literal is carried as its
decimal digits: mantissa and number of places after the point, so `33.7501`
is `num 337501 4` and denotes the exact rational mantissa / 10 ^ exp.
`semi` is the punctuation token `;`, and `ident` is an identifier left
untouched by expansion. -/
inductive Token where
  | str (s : String)
  | num (mantissa : Int) (exp : Nat)
  | semi
  | ident (name : String)
deriving DecidableEq

/-- One line of a C header, in a shape rich enough to record comments,
object-like and function-like defines, include and conditional preprocessing
directives, so that the absence of the latter in `user_settings_h` is a
statement about the file and not about the type. -/
inductive CppLine where
  | blank
  | commentOnly (text : String)
  | pragmaOnce
  | includeDirective (path : String)
  | defineObj (name : String) (body : List Token) (trailing : Option String)
  | defineFun (name : String) (params : List String) (body : List Token) (trailing : Option String)
  | condDirective (text : String)
  | undefDirective (name : String)
deriving DecidableEq

/-- The twelve lines of `src/include/user_settings.h`, transcribed token by
token from the source.  Note the trailing `;` inside the bodies of `HOME_LAT`
(`33.7501;`) and `HOME_LON` (`84.3885;`): the semicolon is part of the define
body in the source text. -/
def user_settings_h : List CppLine :=
  [ .commentOnly "// ---------- USER SETTINGS ----------",
    .pragmaOnce,
    .commentOnly "// Wi-Fi creds",
    .defineObj "WIFI_SSID" [.str ""] (some "// Leave empty to use portal"),
    .defineObj "WIFI_PASSWORD" [.str ""] (some "// Leave empty to use portal"),
    .blank,
    .commentOnly "// Optional compile-time default home (used until phone pushes)",
    .defineObj "HOME_LAT" [.num 337501 4, .semi] (some "// Atlanta, GA"),
    .defineObj "HOME_LON" [.num 843885 4, .semi] none,
    .blank,
    .commentOnly "// Token for /loc endpoint; set to \"\" to disable auth",
    .defineObj "LOC_TOKEN" [.str ""] none ]

/-- The define directives of a header file: name and body token list, in file
order. -/
def definesOf (f : List CppLine) : List (String × List Token) :=
  f.filterMap fun l => match l with
    | .defineObj n b _ => some (n, b)
    | .defineFun n _ b _ => some (n, b)
    | _ => none

/-- The body token list a given name is defined to, if the file defines it. -/
def bodyOf (f : List CppLine) (n : String) : Option (List Token) :=
  (definesOf f).lookup n

/-- A configuration value: a string constant or an exact rational constant. -/
inductive Value where
  | vstr (s : String)
  | vnum (mantissa : Int) (exp : Nat)
deriving DecidableEq

/-- The exact rational a decimal literal with the given mantissa and number
of decimal places denotes. -/
def ratOfLit (m : Int) (e : Nat) : ℚ :=
  m / 10 ^ e

/-- The value a define body denotes: its leading literal token, when the body
starts with one. -/
def leadValue : List Token → Option Value
  | Token.str s :: _ => some (.vstr s)
  | Token.num m e :: _ => some (.vnum m e)
  | _ => none

/-- The configuration values a header defines, in file order. -/
def valuesOf (f : List CppLine) : List (String × Value) :=
  (definesOf f).filterMap fun p => (leadValue p.2).map fun v => (p.1, v)

/-- The configuration value defined for a given name, if any. -/
def lookupValue (f : List CppLine) (n : String) : Option Value :=
  (valuesOf f).lookup n

/-- A token of surrounding source code: either an occurrence of a name that may
be an object-like define, or a plain token. -/
inductive SrcTok where
  | useOf (name : String)
  | plain (t : Token)
deriving DecidableEq

/-- Object-like expansion of one source token against a header: an occurrence
of a defined name is replaced by the define body, any other token stands. -/
def expandTok (f : List CppLine) : SrcTok → List Token
  | .useOf n => (bodyOf f n).getD [.ident n]
  | .plain t => [t]

/-- Object-like expansion of a source token sequence against a header. -/
def expandWith (f : List CppLine) : List SrcTok → List Token
  | [] => []
  | t :: ts => expandTok f t ++ expandWith f ts

/-- A line is pure configuration when it is a blank line, a comment, the
`pragma once` guard, or an object-like define whose body holds no identifier:
no function-like define, no include, no conditional or undef directive. -/
def isPureConfigLine : CppLine → Bool
  | .blank => true
  | .commentOnly _ => true
  | .pragmaOnce => true
  | .defineObj _ body _ => body.all fun t => match t with | .ident _ => false | _ => true
  | _ => false

/-- The record of the five configuration constants of the tracker firmware. -/
structure Settings where
  wifi_ssid : String
  wifi_password : String
  home_lat : ℚ
  home_lon : ℚ
  loc_token : String
deriving DecidableEq

/-- The settings record a header defines, when all five names resolve to
values of the right shape. -/
def settingsOf (f : List CppLine) : Option Settings :=
  match lookupValue f "WIFI_SSID", lookupValue f "WIFI_PASSWORD",
        lookupValue f "HOME_LAT", lookupValue f "HOME_LON",
        lookupValue f "LOC_TOKEN" with
  | some (.vstr s), some (.vstr p), some (.vnum la ea), some (.vnum lo eo), some (.vstr t) =>
      some ⟨s, p, ratOfLit la ea, ratOfLit lo eo, t⟩
  | _, _, _, _, _ => none

/-- A define body that is a single literal token, with no extra tokens. -/
def isSingleLiteralBody : List Token → Bool
  | [Token.str _] => true
  | [Token.num _ _] => true
  | _ => false

/-- Whether every define body of a header is a single literal token. -/
def allBodiesSingleLiteral (f : List CppLine) : Bool :=
  (definesOf f).all fun p => isSingleLiteralBody p.2

/-- Modelled from the spec: the `/loc` HTTP handler is not part of `src/`;
per the spec an empty `LOC_TOKEN` disables bearer-token authentication on the
`/loc` endpoint, a non-empty token enables it. -/
def locAuthEnabled (token : String) : Bool :=
  token != ""

/-- Modelled from the spec: the Wi-Fi provisioning code is not part of `src/`;
per the spec an empty SSID or password triggers the captive-portal
provisioning fallback. -/
def usesCaptivePortal (ssid password : String) : Bool :=
  ssid == "" || password == ""

/-- The exact rational default the header gives to `HOME_LON`, if any. -/
def homeLonDefault (f : List CppLine) : Option ℚ :=
  match lookupValue f "HOME_LON" with
  | some (.vnum m e) => some (ratOfLit m e)
  | _ => none

/-- Erase comment text from a line, keeping every non-comment token. -/
def stripComments : CppLine → CppLine
  | .commentOnly _ => .commentOnly ""
  | .defineObj n b _ => .defineObj n b none
  | .defineFun n ps b _ => .defineFun n ps b none
  | l => l

/-- Modelled from the spec: the material the spec was written from held a
second copy of the 12-line settings file, byte-for-byte identical to
`user_settings_h` except for two comment strings; only one copy appears under
`src/`, so the second copy is reconstructed here from that description, with
two comment lines reworded and every non-comment token unchanged. -/
def user_settings_copy : List CppLine :=
  [ .commentOnly "// ---------- USER SETTINGS (second copy) ----------",
    .pragmaOnce,
    .commentOnly "// Wi-Fi credentials",
    .defineObj "WIFI_SSID" [.str ""] (some "// Leave empty to use portal"),
    .defineObj "WIFI_PASSWORD" [.str ""] (some "// Leave empty to use portal"),
    .blank,
    .commentOnly "// Optional compile-time default home (used until phone pushes)",
    .defineObj "HOME_LAT" [.num 337501 4, .semi] (some "// Atlanta, GA"),
    .defineObj "HOME_LON" [.num 843885 4, .semi] none,
    .blank,
    .commentOnly "// Token for /loc endpoint; set to \"\" to disable auth",
    .defineObj "LOC_TOKEN" [.str ""] none ]

/-- An operation the configuration artifact supports: reading the body a name
is defined to, or expanding a stretch of source code against the header.
Neither operation writes. -/
inductive ConfigOp where
  | readValue (name : String)
  | expandSrc (ts : List SrcTok)

/-- Running one operation: the header state is returned alongside the result
tokens. -/
def runOp (s : List CppLine) : ConfigOp → List CppLine × List Token
  | .readValue n => (s, (bodyOf s n).getD [])
  | .expandSrc ts => (s, expandWith s ts)

/-- Running a sequence of operations, threading the header state. -/
def runOps (s : List CppLine) : List ConfigOp → List CppLine
  | [] => s
  | op :: ops => runOps (runOp s op).1 ops

theorem expandWith_append (f : List CppLine) (a b : List SrcTok) :
    expandWith f (a ++ b) = expandWith f a ++ expandWith f b := by
  induction a with
  | nil => simp [expandWith]
  | cons x xs ih => simp [expandWith, ih]

theorem expandWith_insert (f : List CppLine) (n : String) (pre post : List SrcTok) :
    expandWith f (pre ++ SrcTok.useOf n :: post)
      = expandWith f pre ++ (bodyOf f n).getD [Token.ident n] ++ expandWith f post := by
  rw [expandWith_append]
  simp [expandWith, expandTok]

theorem runOps_fst (s : List CppLine) (ops : List ConfigOp) : runOps s ops = s := by
  induction ops generalizing s with
  | nil => rfl
  | cons op ops ih => cases op <;> simp [runOps, runOp, ih]

/-- C1: the header defines exactly the five configuration names, in order
WIFI_SSID, WIFI_PASSWORD, HOME_LAT, HOME_LON, LOC_TOKEN, with the documented
default values "", "", 33.7501, 84.3885, "", and no other define. -/
theorem user_settings_defines_exactly_five :
    valuesOf user_settings_h =
      [("WIFI_SSID", .vstr ""), ("WIFI_PASSWORD", .vstr ""),
       ("HOME_LAT", .vnum 337501 4), ("HOME_LON", .vnum 843885 4),
       ("LOC_TOKEN", .vstr "")] ∧
    (definesOf user_settings_h).map Prod.fst =
      ["WIFI_SSID", "WIFI_PASSWORD", "HOME_LAT", "HOME_LON", "LOC_TOKEN"] := by
  constructor <;> rfl

/-- C2 counterexample: it is false that every configuration define body is a
single literal token with no extra tokens: the body of `HOME_LAT` in the
header is the two-token sequence `33.7501 ;`. -/
theorem not_all_bodies_single_literal :
    bodyOf user_settings_h "HOME_LAT" = some [Token.num 337501 4, Token.semi] ∧
    allBodiesSingleLiteral user_settings_h = false := by
  constructor <;> rfl

/-- C2 amended: the bodies of the three string defines WIFI_SSID,
WIFI_PASSWORD and LOC_TOKEN are each a single string literal substituted
unchanged, while the bodies of HOME_LAT and HOME_LON are a floating-point
literal followed by a stray semicolon token. -/
theorem define_bodies_amended :
    bodyOf user_settings_h "WIFI_SSID" = some [Token.str ""] ∧
    bodyOf user_settings_h "WIFI_PASSWORD" = some [Token.str ""] ∧
    bodyOf user_settings_h "LOC_TOKEN" = some [Token.str ""] ∧
    bodyOf user_settings_h "HOME_LAT" = some [Token.num 337501 4, Token.semi] ∧
    bodyOf user_settings_h "HOME_LON" = some [Token.num 843885 4, Token.semi] ∧
    isSingleLiteralBody [Token.str ""] = true ∧
    isSingleLiteralBody [Token.num 337501 4, Token.semi] = false ∧
    isSingleLiteralBody [Token.num 843885 4, Token.semi] = false := by
  refine ⟨rfl, rfl, rfl, rfl, rfl, rfl, rfl, rfl⟩

/-- C3: the bodies of HOME_LAT and HOME_LON each hold a trailing semicolon, so
they expand to `33.7501 ;` and `84.3885 ;` rather than to a bare numeric
literal, and every use of either name inside surrounding source code inserts
that stray semicolon into the expanded token stream. -/
theorem home_coords_trailing_semicolon :
    bodyOf user_settings_h "HOME_LAT" = some [Token.num 337501 4, Token.semi] ∧
    bodyOf user_settings_h "HOME_LON" = some [Token.num 843885 4, Token.semi] ∧
    bodyOf user_settings_h "HOME_LAT" ≠ some [Token.num 337501 4] ∧
    bodyOf user_settings_h "HOME_LON" ≠ some [Token.num 843885 4] ∧
    (∀ pre post : List SrcTok,
      expandWith user_settings_h (pre ++ SrcTok.useOf "HOME_LAT" :: post)
        = expandWith user_settings_h pre
            ++ [Token.num 337501 4, Token.semi]
            ++ expandWith user_settings_h post) ∧
    (∀ pre post : List SrcTok,
      expandWith user_settings_h (pre ++ SrcTok.useOf "HOME_LON" :: post)
        = expandWith user_settings_h pre
            ++ [Token.num 843885 4, Token.semi]
            ++ expandWith user_settings_h post) := by
  refine ⟨rfl, rfl, by decide, by decide, ?_, ?_⟩ <;>
    · intro pre post
      rw [expandWith_insert]
      rfl

/-- C4: LOC_TOKEN is defined as the empty string, the value that per the
spec disables bearer-token authentication on the `/loc` endpoint. -/
theorem loc_token_empty_disables_auth :
    bodyOf user_settings_h "LOC_TOKEN" = some [Token.str ""] ∧
    lookupValue user_settings_h "LOC_TOKEN" = some (.vstr "") ∧
    locAuthEnabled "" = false := by
  refine ⟨rfl, rfl, rfl⟩

/-- C5: WIFI_SSID and WIFI_PASSWORD are both defined as the empty string, the
value that per the spec triggers the captive-portal provisioning fallback. -/
theorem wifi_creds_empty_captive_portal :
    lookupValue user_settings_h "WIFI_SSID" = some (.vstr "") ∧
    lookupValue user_settings_h "WIFI_PASSWORD" = some (.vstr "") ∧
    usesCaptivePortal "" "" = true := by
  refine ⟨rfl, rfl, rfl⟩

/-- C6: there are two 12-line copies of the settings file that agree on every
non-comment token, differ in exactly two lines, both of them comment strings,
and define the same five configuration values. -/
theorem two_copies_agree_outside_comments :
    user_settings_h.length = 12 ∧
    user_settings_copy.length = 12 ∧
    user_settings_copy ≠ user_settings_h ∧
    user_settings_copy.map stripComments = user_settings_h.map stripComments ∧
    ((user_settings_h.zip user_settings_copy).countP
        fun p => decide (p.1 ≠ p.2)) = 2 ∧
    valuesOf user_settings_copy = valuesOf user_settings_h := by
  refine ⟨rfl, rfl, by decide, rfl, by decide, rfl⟩

/-- C7: every line of the header is pure configuration: blank, comment, the
pragma guard, or an object-like define of constant tokens, with no
function-like define, conditional directive, include or undef; the whole file
amounts to the record of five constant values. -/
theorem header_is_pure_configuration :
    user_settings_h.all isPureConfigLine = true ∧
    settingsOf user_settings_h
      = some ⟨"", "", ratOfLit 337501 4, ratOfLit 843885 4, ""⟩ := by
  constructor <;> rfl

/-- C8: the configuration is invariant over every possible step: neither of
the operations the artifact supports (reading a define body, expanding source
code) writes, so any sequence of operations leaves the header state
unchanged. -/
theorem config_invariant_under_ops :
    ∀ ops : List ConfigOp, runOps user_settings_h ops = user_settings_h :=
  fun ops => runOps_fst user_settings_h ops

/-- C9: evaluating any of the five configuration values always succeeds:
each of the five names resolves to a define body and to a value, with no
error branch. -/
theorem config_lookup_total :
    (["WIFI_SSID", "WIFI_PASSWORD", "HOME_LAT", "HOME_LON", "LOC_TOKEN"].all
      fun n => (bodyOf user_settings_h n).isSome) = true ∧
    (["WIFI_SSID", "WIFI_PASSWORD", "HOME_LAT", "HOME_LON", "LOC_TOKEN"].all
      fun n => (lookupValue user_settings_h n).isSome) = true := by
  constructor <;> rfl

/-- C10: the default HOME_LON value is the exact positive rational 84.3885,
placing the default coordinate in the eastern hemisphere, even though the
adjacent HOME_LAT line's comment labels the default coordinate Atlanta, GA,
whose longitude is negative. -/
theorem home_lon_positive :
    homeLonDefault user_settings_h = some (ratOfLit 843885 4) ∧
    ratOfLit 843885 4 = 843885 / 10000 ∧
    (0 : ℚ) < ratOfLit 843885 4 ∧
    user_settings_h[7]?
      = some (.defineObj "HOME_LAT" [.num 337501 4, .semi]
          (some "// Atlanta, GA")) := by
  refine ⟨rfl, by norm_num [ratOfLit], by norm_num [ratOfLit], rfl⟩

end UserSettings
